import Mathlib

/-!
Shallow embedding of `src/Quarter/QuarterWidget.cpp` (the QuarterWidget
integration layer between a Qt widget surface and the Coin scene-graph
renderer), together with theorems settling the specification claims about
it.

Modelling conventions:
* Scene-graph nodes (`SoNode`) are modelled as trees carrying a numeric
  identity; pointer identity in the C++ source corresponds to node ids.
* Reference counts (the explicit `ref`/`unref` calls appearing in
  QuarterWidget.cpp) are tracked as a function from node id to count.
* External collaborators (the ScXML reader, the Qt file system, the
  event manager's routing algorithm, the global delay-sensor flag) are
  passed in as explicit parameters where the source consults them.
* Qt/OpenGL host-toolkit interactions (window handles, device pixel
  ratio, GL context switches, qDebug output) are out of scope per the
  spec; the qDebug error reports are modelled as a `NavCondition` value.
-/

namespace Quarter

/-- Scene-graph nodes. `camera` models `SoCamera`/`SoPerspectiveCamera`,
`light` models `SoDirectionalLight` (the headlight), `group` models
`SoSeparator` and other group nodes, `other` models any non-camera,
non-light leaf node. The `id` is the node's identity (pointer). -/
inductive SoNode where
  | camera (id : Nat) : SoNode
  | light (id : Nat) : SoNode
  | group (id : Nat) (children : List SoNode) : SoNode
  | other (id : Nat) : SoNode
deriving Repr

mutual

/-- Decidable structural equality on scene nodes (node identity is part
of the structure, so this coincides with pointer comparison in the
source). -/
def SoNode.decEq : (a b : SoNode) → Decidable (a = b)
  | .camera i, .camera j =>
    match Nat.decEq i j with
    | isTrue h => isTrue (by rw [h])
    | isFalse h => isFalse (fun hh => by injection hh with h1; exact h h1)
  | .camera _, .light _ => isFalse nofun
  | .camera _, .group _ _ => isFalse nofun
  | .camera _, .other _ => isFalse nofun
  | .light _, .camera _ => isFalse nofun
  | .light i, .light j =>
    match Nat.decEq i j with
    | isTrue h => isTrue (by rw [h])
    | isFalse h => isFalse (fun hh => by injection hh with h1; exact h h1)
  | .light _, .group _ _ => isFalse nofun
  | .light _, .other _ => isFalse nofun
  | .group _ _, .camera _ => isFalse nofun
  | .group _ _, .light _ => isFalse nofun
  | .group i cs, .group j ds =>
    match Nat.decEq i j, SoNode.decEqList cs ds with
    | isTrue h1, isTrue h2 => isTrue (by rw [h1, h2])
    | isFalse h1, _ => isFalse (fun hh => by injection hh with ha hb; exact h1 ha)
    | isTrue _, isFalse h2 => isFalse (fun hh => by injection hh with ha hb; exact h2 hb)
  | .group _ _, .other _ => isFalse nofun
  | .other _, .camera _ => isFalse nofun
  | .other _, .light _ => isFalse nofun
  | .other _, .group _ _ => isFalse nofun
  | .other i, .other j =>
    match Nat.decEq i j with
    | isTrue h => isTrue (by rw [h])
    | isFalse h => isFalse (fun hh => by injection hh with h1; exact h h1)

/-- Decidable structural equality on lists of scene nodes. -/
def SoNode.decEqList : (a b : List SoNode) → Decidable (a = b)
  | [], [] => isTrue rfl
  | [], _ :: _ => isFalse nofun
  | _ :: _, [] => isFalse nofun
  | c :: cs, d :: ds =>
    match SoNode.decEq c d, SoNode.decEqList cs ds with
    | isTrue h1, isTrue h2 => isTrue (by rw [h1, h2])
    | isFalse h1, _ => isFalse (fun hh => by injection hh with ha hb; exact h1 ha)
    | isTrue _, isFalse h2 => isFalse (fun hh => by injection hh with ha hb; exact h2 hb)

end

instance : DecidableEq SoNode := SoNode.decEq

/-- Identity (pointer) of a node's root. -/
def SoNode.rootId : SoNode → Nat
  | .camera i => i
  | .light i => i
  | .group i _ => i
  | .other i => i

mutual

/-- Modelled from the spec: `QuarterWidgetP::searchForCamera` is declared in
`QuarterWidgetP.h` and implemented outside `src/`; the spec describes it as
searching the node's subgraph for the first camera encountered in a
depth-first traversal, returning it (here: its identity) or none. -/
def searchForCamera : SoNode → Option Nat
  | .camera i => some i
  | .light _ => none
  | .other _ => none
  | .group _ cs => searchForCameraList cs

/-- Depth-first search over a child list, part of `searchForCamera`. -/
def searchForCameraList : List SoNode → Option Nat
  | [] => none
  | c :: rest =>
    match searchForCamera c with
    | some i => some i
    | none => searchForCameraList rest

end

/-- Model of `QUrl`: scheme and path components (the parts QuarterWidget
consults). -/
structure QUrl where
  scheme : String
  path : String
deriving Repr, DecidableEq

/-- Model of `QUrl::isEmpty`. -/
def QUrl.isEmpty (u : QUrl) : Bool :=
  u.scheme == "" && u.path == ""

/-- Model of `QColor`: four integer channels in 0..255 (stored as
supplied; QuarterWidget normalizes on use). -/
structure QColor where
  red : Int
  green : Int
  blue : Int
  alpha : Int
deriving Repr, DecidableEq

/-- Cursor shapes used by QuarterWidget's default cursor bindings. -/
inductive QCursor where
  | arrowCursor
  | openHandCursor
  | closedHandCursor
  | sizeAllCursor
  | sizeVerCursor
  | crossCursor
deriving Repr, DecidableEq

/-- Model of `SbColor4f`: four normalized channels. -/
structure SbColor4f where
  r : Rat
  g : Rat
  b : Rat
  a : Rat
deriving Repr, DecidableEq

/-- Model of `SbClamp`. -/
def sbClamp (val lo hi : Rat) : Rat :=
  if val < lo then lo else if val > hi then hi else val

/-- Model of an `ScXMLStateMachine` object (and its `SoScXMLStateMachine`
subclass) as far as QuarterWidget observes it. `id` is object identity;
`isSoScXML` models `isOfType(SoScXMLStateMachine::getClassTypeId())`;
`processedEvents` is the trace of named events queued and drained through
`queueEvent`/`processEventQueue`. -/
structure ScXMLStateMachine where
  id : Nat
  isSoScXML : Bool
  active : Bool
  initialized : Bool
  sceneGraphRoot : Option SoNode
  activeCamera : Option Nat
  processedEvents : List String
deriving Repr, DecidableEq

/-- Model of `SoRenderManager` state as far as QuarterWidget observes
and mutates it: scene graph, camera (by identity), viewport region,
background color, the GL render action's transparency type, render mode,
stereo mode, and whether a redraw has been scheduled
(`scheduleRedraw`). Enumeration-valued modes are carried as `Nat`
(the source casts through the underlying enum values). -/
structure SoRenderManager where
  scene : Option SoNode
  camera : Option Nat
  viewport : Nat × Nat
  backgroundColor : SbColor4f
  glTransparencyType : Nat
  renderMode : Nat
  stereoMode : Nat
  redrawScheduled : Bool
deriving Repr, DecidableEq

/-- Model of `SoEventManager` state as far as QuarterWidget observes and
mutates it: scene graph, camera, viewport, and the list of attached
ScXML state machines. -/
structure SoEventManager where
  scene : Option SoNode
  camera : Option Nat
  viewport : Nat × Nat
  stateMachines : List ScXMLStateMachine
deriving Repr, DecidableEq

/-- The widget state: the private data of `QuarterWidget`
(`QuarterWidgetP`) plus the reference counts manipulated by the explicit
`ref`/`unref` calls in QuarterWidget.cpp. `nextId` is the allocator for
fresh node identities (`new SoSeparator`, `new SoPerspectiveCamera`). -/
structure WidgetState where
  sorendermanager : Option SoRenderManager
  initialsorendermanager : Bool
  soeventmanager : Option SoEventManager
  initialsoeventmanager : Bool
  processdelayqueue : Bool
  autoredrawenabled : Bool
  scene : Option SoNode
  headlightId : Nat
  currentStateMachine : Option ScXMLStateMachine
  navigationModeFile : QUrl
  clearwindow : Bool
  clearzbuffer : Bool
  refcounts : Nat → Nat
  nextId : Nat

/-- Increment the reference count of a (possibly null) node id:
`if (p) p->ref();`. -/
def refOpt (rc : Nat → Nat) : Option Nat → Nat → Nat
  | none => rc
  | some id => fun i => if i = id then rc i + 1 else rc i

/-- Decrement the reference count of a (possibly null) node id:
`if (p) p->unref();`. -/
def unrefOpt (rc : Nat → Nat) : Option Nat → Nat → Nat
  | none => rc
  | some id => fun i => if i = id then rc i - 1 else rc i

/-- The process-wide `QuarterP::statecursormap` (a `QMap<SbName, QCursor>`),
modelled as an insertion-ordered association list. -/
abbrev CursorMap := List (String × QCursor)

/-- `QuarterWidget::setStateCursor`: `QMap::insert` — overwrites the value of
an existing item, otherwise appends a new binding. -/
def setStateCursor (m : CursorMap) (state : String) (cursor : QCursor) : CursorMap :=
  if m.any fun p => p.1 == state then
    m.map fun p => if p.1 == state then (state, cursor) else p
  else m ++ [(state, cursor)]

/-- `QuarterWidget::stateCursor`: `QMap::value` lookup (the source returns a
default-constructed cursor when absent; absence is modelled as `none`). -/
def stateCursor (m : CursorMap) (state : String) : Option QCursor :=
  (m.find? fun p => p.1 == state).map Prod.snd

/-- The render manager state created by the `QuarterWidget` constructor:
`new SoRenderManager` followed by
`setBackgroundColor(SbColor4f(0.0f, 0.0f, 0.0f, 0.0f))`. The viewport and
the mode fields start at the external library's defaults, which no claim
observes; they are fixed here as zeros. -/
def initialRenderManager : SoRenderManager :=
  { scene := none, camera := none, viewport := (0, 0),
    backgroundColor := ⟨0, 0, 0, 0⟩,
    glTransparencyType := 0, renderMode := 0, stereoMode := 0,
    redrawScheduled := false }

/-- The event manager state created by the constructor: `new SoEventManager`
with no attached state machines. -/
def initialEventManager : SoEventManager :=
  { scene := none, camera := none, viewport := (0, 0), stateMachines := [] }

/-- The widget state after `QuarterWidget::constructor`: both managers
fresh and flagged as owned (`initialsorendermanager` /
`initialsoeventmanager` true), `processdelayqueue = true`, no current
state machine, a fresh referenced headlight (id 0), and no scene.
`clearwindow`/`clearzbuffer`/`autoredrawenabled` start true (initialized
in `QuarterWidgetP`, whose constructor documents the clear flags as on by
default). -/
def initialState : WidgetState :=
  { sorendermanager := some initialRenderManager,
    initialsorendermanager := true,
    soeventmanager := some initialEventManager,
    initialsoeventmanager := true,
    processdelayqueue := true,
    autoredrawenabled := true,
    scene := none,
    headlightId := 0,
    currentStateMachine := none,
    navigationModeFile := ⟨"", ""⟩,
    clearwindow := true,
    clearzbuffer := true,
    refcounts := fun i => if i = 0 then 1 else 0,
    nextId := 1 }

/-- Apply an update to the widget's render manager, when present (the
source dereferences the pointer under an `assert`). -/
def modifyRM (s : WidgetState) (f : SoRenderManager → SoRenderManager) : WidgetState :=
  { s with sorendermanager := s.sorendermanager.map f }

/-- `SoRenderManager::scheduleRedraw` on the widget's render manager:
marks the manager as needing a (scheduled, asynchronous) redraw. -/
def scheduleRedraw (s : WidgetState) : WidgetState :=
  modifyRM s fun rm => { rm with redrawScheduled := true }

/-- `QuarterWidget::setClearZBuffer`. -/
def setClearZBuffer (s : WidgetState) (onoff : Bool) : WidgetState :=
  { s with clearzbuffer := onoff }

/-- `QuarterWidget::setClearWindow`. -/
def setClearWindow (s : WidgetState) (onoff : Bool) : WidgetState :=
  { s with clearwindow := onoff }

/-- `QuarterWidget::setTransparencyType`: sets the GL render action's
transparency type, then `scheduleRedraw()`. -/
def setTransparencyType (s : WidgetState) (type : Nat) : WidgetState :=
  scheduleRedraw (modifyRM s fun rm => { rm with glTransparencyType := type })

/-- `QuarterWidget::setRenderMode`: sets the render manager's render
mode, then `scheduleRedraw()`. -/
def setRenderMode (s : WidgetState) (mode : Nat) : WidgetState :=
  scheduleRedraw (modifyRM s fun rm => { rm with renderMode := mode })

/-- `QuarterWidget::setStereoMode`: sets the render manager's stereo
mode, then `scheduleRedraw()`. -/
def setStereoMode (s : WidgetState) (mode : Nat) : WidgetState :=
  scheduleRedraw (modifyRM s fun rm => { rm with stereoMode := mode })

/-- `QuarterWidget::setBackgroundColor`: normalizes the four 0..255
channels to [0,1] with `SbClamp`, installs them, then `scheduleRedraw()`. -/
def setBackgroundColor (s : WidgetState) (color : QColor) : WidgetState :=
  let bgcolor : SbColor4f :=
    { r := sbClamp ((color.red : Rat) / 255) 0 1,
      g := sbClamp ((color.green : Rat) / 255) 0 1,
      b := sbClamp ((color.blue : Rat) / 255) 0 1,
      a := sbClamp ((color.alpha : Rat) / 255) 0 1 }
  scheduleRedraw (modifyRM s fun rm => { rm with backgroundColor := bgcolor })

/-- The named event queued by `QuarterWidget::viewAll`. -/
def viewAllEventName : String := "sim.coin3d.coin.navigation.ViewAll"

/-- `QuarterWidget::viewAll`: for every state machine attached to the
event manager that is active, queue the ViewAll event and synchronously
drain the machine's event queue (modelled as appending to the machine's
processed-events trace). -/
def viewAll (s : WidgetState) : WidgetState :=
  { s with
    soeventmanager := s.soeventmanager.map fun em =>
      { em with
        stateMachines := em.stateMachines.map fun sm =>
          if sm.active then
            { sm with processedEvents := sm.processedEvents ++ [viewAllEventName] }
          else sm } }

/-- `QuarterWidget::setSceneGraph`. Equal node: early return. Otherwise:
unref and drop the previous user scene; for a non-null node, ref it,
build a fresh `SoSeparator` (`superscene`) with the headlight first,
search the node's subgraph for a camera, synthesize a fresh
`SoPerspectiveCamera` as second child when none is found (marking a
view-all), append the user node, install camera and superscene into both
the event and render managers, and run `viewAll()` when marked. For a
null node both managers receive a null scene and camera.
(`superscene->touch()` is a notification internal to the external
scene-graph library and leaves this state unchanged.) -/
def setSceneGraph (s : WidgetState) (node : Option SoNode) : WidgetState :=
  if node = s.scene then s
  else
    let s₁ :=
      match s.scene with
      | some old => { s with refcounts := unrefOpt s.refcounts (some old.rootId), scene := none }
      | none => s
    match node with
    | none =>
      { s₁ with
        soeventmanager := s₁.soeventmanager.map fun em =>
          { em with camera := none, scene := none },
        sorendermanager := s₁.sorendermanager.map fun rm =>
          { rm with camera := none, scene := none } }
    | some n =>
      let s₂ := { s₁ with scene := some n, refcounts := refOpt s₁.refcounts (some n.rootId) }
      let sepId := s₂.nextId
      match searchForCamera n with
      | some cid =>
        let superscene := SoNode.group sepId [SoNode.light s₂.headlightId, n]
        { s₂ with
          nextId := sepId + 1,
          soeventmanager := s₂.soeventmanager.map fun em =>
            { em with camera := some cid, scene := some superscene },
          sorendermanager := s₂.sorendermanager.map fun rm =>
            { rm with camera := some cid, scene := some superscene } }
      | none =>
        let camId := sepId + 1
        let superscene :=
          SoNode.group sepId [SoNode.light s₂.headlightId, SoNode.camera camId, n]
        viewAll
          { s₂ with
            nextId := sepId + 2,
            soeventmanager := s₂.soeventmanager.map fun em =>
              { em with camera := some camId, scene := some superscene },
            sorendermanager := s₂.sorendermanager.map fun rm =>
              { rm with camera := some camId, scene := some superscene } }

/-- `QuarterWidget::setSoRenderManager`: snapshot scene/camera/viewport of
the current manager when both it and the incoming manager are non-null;
ref the snapshotted scene and camera; delete the old manager when it is
the widget-owned one (clearing the ownership flag); install the incoming
manager; restore the snapshot into it; unref the snapshotted nodes. -/
def setSoRenderManager (s : WidgetState) (manager : Option SoRenderManager) : WidgetState :=
  let carry : Option (Option SoNode × Option Nat × (Nat × Nat)) :=
    match s.sorendermanager, manager with
    | some old, some _ => some (old.scene, old.camera, old.viewport)
    | _, _ => none
  let rc :=
    match carry with
    | some (sc, cam, _) => refOpt (refOpt s.refcounts (sc.map SoNode.rootId)) cam
    | none => s.refcounts
  let s₁ :=
    if s.initialsorendermanager then
      { s with refcounts := rc, initialsorendermanager := false }
    else { s with refcounts := rc }
  let s₂ := { s₁ with sorendermanager := manager }
  let s₃ :=
    match carry with
    | some (sc, cam, vp) =>
      { s₂ with
        sorendermanager := s₂.sorendermanager.map fun m =>
          { m with scene := sc, camera := cam, viewport := vp } }
    | none => s₂
  match carry with
  | some (sc, cam, _) =>
    { s₃ with refcounts := unrefOpt (unrefOpt s₃.refcounts (sc.map SoNode.rootId)) cam }
  | none => s₃

/-- `QuarterWidget::paintGL`, taking the process-wide
`SoDB::getSensorManager()->isDelaySensorPending()` signal as input and
returning the new state together with whether the pending delay-queue
updates were flushed. Disables automatic redraws, flushes the delay
queue when this paint was not flagged as synthetic and updates are
pending (bracketed by a GL context release/reacquire, external), renders
via `actualRedraw()` (an external draw call), re-enables automatic
redraws, and resets the synthetic flag so the next paint flushes
normally. (The device-pixel-ratio viewport refresh at the top of the
source function is a host-toolkit interaction, out of scope per the
spec.) -/
def paintGL (s : WidgetState) (delaySensorPending : Bool) : WidgetState × Bool :=
  let s₁ := { s with autoredrawenabled := false }
  let flushed := s₁.processdelayqueue && delaySensorPending
  let s₂ := { s₁ with autoredrawenabled := true, processdelayqueue := true }
  (s₂, flushed)

/-- `QuarterWidget::redraw`: flags the upcoming paint as triggered by us
(`processdelayqueue = false`) and asks the host surface to schedule a
repaint (`update()`/`updateGL()`, external). -/
def redraw (s : WidgetState) : WidgetState :=
  { s with processdelayqueue := false }

/-- `QuarterWidget::processSoEvent`:
`event && soeventmanager && soeventmanager->processEvent(event)`, with
short-circuit evaluation. Events are opaque (`Nat`); the event manager's
routing is the external collaborator `processEvent`. Returns the result
together with the list of events actually forwarded to the manager. -/
def processSoEvent (s : WidgetState) (event : Option Nat)
    (processEvent : Nat → Bool) : Bool × List Nat :=
  match event, s.soeventmanager with
  | some e, some _ => (processEvent e, [e])
  | _, _ => (false, [])

/-- `QuarterWidget::addStateMachine`: registers the machine with the
event manager, then sets its scene graph root and active camera from
the render manager (mutation through the shared pointer, modelled as an
id-targeted update of the attached copy). The state-change callback
registration is external. -/
def addStateMachine (s : WidgetState) (statemachine : ScXMLStateMachine) : WidgetState :=
  let root := s.sorendermanager.bind fun rm => rm.scene
  let cam := s.sorendermanager.bind fun rm => rm.camera
  { s with
    soeventmanager := s.soeventmanager.map fun em =>
      { em with
        stateMachines :=
          (em.stateMachines ++ [statemachine]).map fun m =>
            if m.id = statemachine.id then
              { m with sceneGraphRoot := root, activeCamera := cam }
            else m } }

/-- `QuarterWidget::removeStateMachine`: nulls the machine's scene graph
root and active camera (so it retains no stale references), then removes
it from the event manager. -/
def removeStateMachine (s : WidgetState) (statemachine : ScXMLStateMachine) : WidgetState :=
  { s with
    soeventmanager := s.soeventmanager.map fun em =>
      { em with
        stateMachines :=
          ((em.stateMachines.map fun m =>
              if m.id = statemachine.id then
                { m with sceneGraphRoot := none, activeCamera := none }
              else m).filter fun m => m.id != statemachine.id) } }

/-- Modelled from the spec: `DEFAULT_NAVIGATIONFILE` is defined in
`QuarterP.h`, which is not under `src/`; the spec calls it the
distinguished default navigation descriptor, an embedded-resource
locator for the examiner navigation description. -/
def DEFAULT_NAVIGATIONFILE : QUrl :=
  ⟨"coin", "scxml/navigation/examiner.scxml"⟩

/-- The condition reported by a navigation-file load: success, an
unrecognized locator scheme (`qDebug << scheme << "is not recognized"`),
or a failed resolve/parse/type check (`qDebug << "Unable to load"`). -/
inductive NavCondition where
  | ok
  | unsupportedScheme
  | loadFailed
deriving Repr, DecidableEq

/-- Result of `setNavigationModeFile`: the widget state, the process-wide
cursor table, and the reported condition. -/
structure NavResult where
  widget : WidgetState
  cursorMap : CursorMap
  condition : NavCondition

/-- Tail of `QuarterWidget::setNavigationModeFile` after filename
resolution (source lines 1049-1105): both read channels (`ScXML::readFile`
for the embedded-resource scheme, `QFile`+`ScXML::readBuffer` otherwise)
and the parse are external; their combined outcome is supplied as
`loadOutcome` (`none`: unreadable resource or failed parse; `some sm`
with `sm.isSoScXML = false`: parsed object of an incompatible type).
On success: detach and destroy any previous machine, attach the new one,
initialize it, record it as current, store the url, and — when the url
is the distinguished default descriptor — install the fixed table of
eight state-to-cursor bindings. On failure: discard the partial object
and leave everything unchanged. -/
def navigationLoad (s : WidgetState) (cursorMap : CursorMap) (url : QUrl)
    (loadOutcome : Option ScXMLStateMachine) : NavResult :=
  match loadOutcome with
  | some sm =>
    if sm.isSoScXML then
      let s₁ : WidgetState :=
        match s.currentStateMachine with
        | some cur => { (removeStateMachine s cur) with currentStateMachine := none }
        | none => s
      let s₂ : WidgetState := addStateMachine s₁ sm
      let s₃ : WidgetState :=
        { s₂ with
          soeventmanager := s₂.soeventmanager.map fun em =>
            { em with
              stateMachines := em.stateMachines.map fun m =>
                if m.id = sm.id then { m with initialized := true } else m } }
      let root := s₁.sorendermanager.bind fun rm => rm.scene
      let cam := s₁.sorendermanager.bind fun rm => rm.camera
      let s₄ : WidgetState :=
        { s₃ with
          currentStateMachine :=
            some { sm with sceneGraphRoot := root, activeCamera := cam, initialized := true },
          navigationModeFile := url }
      if DEFAULT_NAVIGATIONFILE = url then
        { widget := s₄,
          cursorMap :=
            setStateCursor (setStateCursor (setStateCursor (setStateCursor
              (setStateCursor (setStateCursor (setStateCursor (setStateCursor cursorMap
                "interact" .arrowCursor) "idle" .openHandCursor) "rotate" .closedHandCursor)
                "pan" .sizeAllCursor) "zoom" .sizeVerCursor) "dolly" .sizeVerCursor)
                "seek" .crossCursor) "spin" .openHandCursor,
          condition := .ok }
      else
        { widget := s₄, cursorMap := cursorMap, condition := .ok }
    else
      { widget := s, cursorMap := cursorMap, condition := .loadFailed }
  | none => { widget := s, cursorMap := cursorMap, condition := .loadFailed }

/-- `QuarterWidget::setNavigationModeFile`. The `coin` scheme resolves to
`scheme:path` after stripping one leading separator from the path (the
live workaround for the scheme difference in the source); the `file`
scheme resolves through `QUrl::toLocalFile`; an empty url detaches and
destroys the current state machine (when one exists, also storing the
empty url); any other scheme is reported as unrecognized with no state
change. The resolved filename only selects the external read channel,
whose outcome is the `loadOutcome` parameter of `navigationLoad`. -/
def setNavigationModeFile (s : WidgetState) (cursorMap : CursorMap) (url : QUrl)
    (loadOutcome : Option ScXMLStateMachine) : NavResult :=
  if url.scheme == "coin" then
    let path := if url.path.front = '/' then url.path.drop 1 else url.path
    let _filename := url.scheme ++ ":" ++ path
    navigationLoad s cursorMap url loadOutcome
  else if url.scheme == "file" then
    navigationLoad s cursorMap url loadOutcome
  else if url.isEmpty then
    match s.currentStateMachine with
    | some cur =>
      let s₁ := removeStateMachine s cur
      { widget := { s₁ with currentStateMachine := none, navigationModeFile := url },
        cursorMap := cursorMap, condition := .ok }
    | none => { widget := s, cursorMap := cursorMap, condition := .ok }
  else
    { widget := s, cursorMap := cursorMap, condition := .unsupportedScheme }

/-!
## Theorems

Helper lemmas first, then one theorem per specification claim (with a
witness or counterexample where required).
-/

/-- A matched ref/unref pair around a swap leaves every reference count
unchanged (the net effect of the `ref`-before-delete / `unref`-after
bracket in the manager setters). -/
theorem unrefOpt_refOpt_cancel (rc : Nat → Nat) (o₁ o₂ : Option Nat) :
    unrefOpt (unrefOpt (refOpt (refOpt rc o₁) o₂) o₁) o₂ = rc := by
  funext i
  cases o₁ <;> cases o₂ <;> simp only [refOpt, unrefOpt] <;> (try split_ifs) <;> omega

/-- The user scene recorded after `setSceneGraph` is exactly the node
passed in. -/
theorem scene_after_setSceneGraph (s : WidgetState) (n : Option SoNode) :
    (setSceneGraph s n).scene = n := by
  unfold setSceneGraph
  by_cases h : n = s.scene
  · rw [if_pos h]; exact h.symm
  · rw [if_neg h]
    cases hs : s.scene <;> simp only [hs] <;> cases n with
    | none => simp
    | some n' =>
      cases hc : searchForCamera n' <;> simp [hc, viewAll]

/-- `setSceneGraph` with the currently installed node returns
immediately. -/
theorem setSceneGraph_noop (s : WidgetState) (n : Option SoNode) (h : n = s.scene) :
    setSceneGraph s n = s := by
  unfold setSceneGraph; rw [if_pos h]

/-- Claim C5: installing the same scene node twice is a no-op — for every
state and node `n` (including null), the second of two consecutive
`setSceneGraph n` calls leaves the whole widget state (root topology,
reference counts, both managers' scene and camera) exactly as the first
call left it. -/
theorem setSceneGraph_idempotent (s : WidgetState) (n : Option SoNode) :
    setSceneGraph (setSceneGraph s n) n = setSceneGraph s n :=
  setSceneGraph_noop _ _ (scene_after_setSceneGraph s n).symm

/-- Claim C2 (counterexample): at the concrete post-construction state,
with the pending-update signal set at both paints and no intervening
`redraw()`, the second `paintGL` DOES flush the pending delay-queue
updates — the claimed no-double-flush behavior is false on the code,
because `paintGL` ends by re-enabling the flush
(`processdelayqueue = true`). -/
theorem paintGL_second_flush_counterexample :
    (paintGL (paintGL initialState true).1 true).2 = true := rfl

/-- Claim C2 (amended): the end-of-paint reset of the synthetic flag
re-enables flushing, so a second immediate `paintGL` flushes exactly
when the pending signal is set; the flush is skipped only on a paint
that follows a `redraw()` call. -/
theorem paintGL_flush_reenabled (s : WidgetState) (p₁ p₂ : Bool) :
    (paintGL (paintGL s p₁).1 p₂).2 = p₂ ∧ (paintGL (redraw s) p₂).2 = false := by
  constructor <;> simp [paintGL, redraw]

/-- Claim C3 (counterexample): at the concrete post-construction state
(whose render manager has no redraw scheduled), `setClearWindow` and
`setClearZBuffer` do not mark the render manager for a scheduled redraw,
so not every setter of the render configuration surface triggers a
redraw request. -/
theorem clear_setters_no_redraw_counterexample :
    (setClearWindow initialState false).sorendermanager.map SoRenderManager.redrawScheduled =
        some false ∧
      (setClearZBuffer initialState false).sorendermanager.map SoRenderManager.redrawScheduled =
        some false :=
  ⟨rfl, rfl⟩

/-- Claim C3 (amended): the background-color, transparency-mode,
render-mode, and stereo-mode setters each mark the render manager for a
scheduled redraw rather than drawing synchronously; the clear-window and
clear-depth setters only store their flag in the widget and schedule no
redraw. -/
theorem render_config_setters (s : WidgetState) (rm : SoRenderManager)
    (h : s.sorendermanager = some rm) (color : QColor) (t mo st : Nat) (b c : Bool) :
    ((setBackgroundColor s color).sorendermanager.map SoRenderManager.redrawScheduled =
        some true) ∧
      ((setTransparencyType s t).sorendermanager.map SoRenderManager.redrawScheduled =
        some true) ∧
      ((setRenderMode s mo).sorendermanager.map SoRenderManager.redrawScheduled =
        some true) ∧
      ((setStereoMode s st).sorendermanager.map SoRenderManager.redrawScheduled =
        some true) ∧
      setClearWindow s b = { s with clearwindow := b } ∧
      setClearZBuffer s c = { s with clearzbuffer := c } := by
  refine ⟨?_, ?_, ?_, ?_, rfl, rfl⟩ <;>
    simp [setBackgroundColor, setTransparencyType, setRenderMode, setStereoMode,
      scheduleRedraw, modifyRM, h]

/-- Witness for the amended C3 theorem at the concrete post-construction
state. -/
theorem render_config_setters_witness :
    ((setBackgroundColor initialState ⟨10, 20, 30, 128⟩).sorendermanager.map
        SoRenderManager.redrawScheduled = some true) ∧
      ((setTransparencyType initialState 1).sorendermanager.map
        SoRenderManager.redrawScheduled = some true) ∧
      ((setRenderMode initialState 2).sorendermanager.map
        SoRenderManager.redrawScheduled = some true) ∧
      ((setStereoMode initialState 3).sorendermanager.map
        SoRenderManager.redrawScheduled = some true) ∧
      setClearWindow initialState false = { initialState with clearwindow := false } ∧
      setClearZBuffer initialState false = { initialState with clearzbuffer := false } :=
  render_config_setters initialState initialRenderManager rfl ⟨10, 20, 30, 128⟩ 1 2 3 false false

/-- Claim C9: `processSoEvent` returns false, forwarding nothing to the
event manager, whenever the event is null or no event manager is
installed; otherwise it forwards exactly the supplied event once and
returns the event manager's `processEvent` result. -/
theorem processSoEvent_contract (s : WidgetState) (ev : Option Nat) (pe : Nat → Bool) :
    ((ev = none ∨ s.soeventmanager = none) → processSoEvent s ev pe = (false, [])) ∧
      (∀ e em, ev = some e → s.soeventmanager = some em →
        processSoEvent s ev pe = (pe e, [e])) := by
  constructor
  · rintro (rfl | hm)
    · cases hm : s.soeventmanager <;> simp [processSoEvent, hm]
    · cases ev <;> simp [processSoEvent, hm]
  · rintro e em rfl hm
    simp [processSoEvent, hm]

/-- Witness for the C9 theorem: both the null-event guard and the
forwarding case at concrete inputs. -/
theorem processSoEvent_contract_witness :
    processSoEvent initialState none (fun _ => true) = (false, []) ∧
      processSoEvent initialState (some 7) (fun e => e == 7) = (true, [7]) :=
  ⟨(processSoEvent_contract initialState none (fun _ => true)).1 (Or.inl rfl),
   (processSoEvent_contract initialState (some 7) (fun e => e == 7)).2 7 initialEventManager
      rfl rfl⟩

/-- Claim C1: replacing an owned render manager with a non-null one
carries the outgoing manager's scene graph, camera, and viewport region
into the new manager unchanged (they read back equal to the outgoing
manager's), clears the ownership flag, and — through the matched
ref/unref bracket around the swap — leaves every reference count as it
was, so the carried nodes survive the old manager's destruction. -/
theorem setSoRenderManager_carryover (s : WidgetState) (old m : SoRenderManager)
    (hold : s.sorendermanager = some old) (howned : s.initialsorendermanager = true) :
    (setSoRenderManager s (some m)).sorendermanager =
        some { m with scene := old.scene, camera := old.camera, viewport := old.viewport } ∧
      (setSoRenderManager s (some m)).initialsorendermanager = false ∧
      (setSoRenderManager s (some m)).refcounts = s.refcounts := by
  unfold setSoRenderManager
  rw [hold]
  simp only [howned, if_true]
  simp [unrefOpt_refOpt_cancel]

/-- Witness for the C1 theorem: the post-construction state (which owns
its fresh render manager) swapped for a caller-supplied manager with
distinct configuration. -/
theorem setSoRenderManager_carryover_witness :
    (setSoRenderManager initialState
          (some ⟨some (SoNode.other 9), some 8, (640, 480), ⟨1, 0, 0, 1⟩, 2, 1, 1, true⟩)).sorendermanager =
        some ⟨none, none, (0, 0), ⟨1, 0, 0, 1⟩, 2, 1, 1, true⟩ ∧
      (setSoRenderManager initialState
          (some ⟨some (SoNode.other 9), some 8, (640, 480), ⟨1, 0, 0, 1⟩, 2, 1, 1, true⟩)).initialsorendermanager =
        false ∧
      (setSoRenderManager initialState
          (some ⟨some (SoNode.other 9), some 8, (640, 480), ⟨1, 0, 0, 1⟩, 2, 1, 1, true⟩)).refcounts =
        initialState.refcounts :=
  setSoRenderManager_carryover initialState initialRenderManager
    ⟨some (SoNode.other 9), some 8, (640, 480), ⟨1, 0, 0, 1⟩, 2, 1, 1, true⟩ rfl rfl

/-- Claim C6: a non-empty locator whose scheme is neither `coin` nor
`file` makes `setNavigationModeFile` report the unsupported-scheme
condition and leave the whole state — including the attached state
machine and the stored `navigationModeFile` value — unchanged. -/
theorem setNavigationModeFile_unsupportedScheme (s : WidgetState) (cm : CursorMap)
    (url : QUrl) (lo : Option ScXMLStateMachine)
    (hcoin : url.scheme ≠ "coin") (hfile : url.scheme ≠ "file")
    (hne : url.isEmpty = false) :
    setNavigationModeFile s cm url lo = ⟨s, cm, NavCondition.unsupportedScheme⟩ := by
  unfold setNavigationModeFile
  simp [hcoin, hfile, hne]

/-- Witness for the C6 theorem: an `ftp` locator at the
post-construction state. -/
theorem setNavigationModeFile_unsupportedScheme_witness :
    setNavigationModeFile initialState [] ⟨"ftp", "nav.scxml"⟩ none =
      ⟨initialState, [], NavCondition.unsupportedScheme⟩ :=
  setNavigationModeFile_unsupportedScheme initialState [] ⟨"ftp", "nav.scxml"⟩ none
    (by decide) (by decide) (by decide)

/-- Claim C7: a navigation load that fails after scheme resolution —
unreadable resource, failed parse (both: no object), or a parsed object
that is not an `SoScXMLStateMachine` — discards the partial object,
reports the load-failed condition, and leaves the whole state (previous
state machine, stored `navigationModeFile`) untouched. -/
theorem setNavigationModeFile_loadFailed (s : WidgetState) (cm : CursorMap)
    (url : QUrl) (lo : Option ScXMLStateMachine)
    (hscheme : url.scheme = "coin" ∨ url.scheme = "file")
    (hfail : lo = none ∨ ∃ sm, lo = some sm ∧ sm.isSoScXML = false) :
    setNavigationModeFile s cm url lo = ⟨s, cm, NavCondition.loadFailed⟩ := by
  unfold setNavigationModeFile navigationLoad
  rcases hfail with rfl | ⟨sm, rfl, hsm⟩
  · rcases hscheme with h | h <;> simp [h]
  · rcases hscheme with h | h <;> simp [h, hsm]

/-- Witness for the C7 theorem: an unreadable `file` locator and an
incompatible parsed object, both at the post-construction state. -/
theorem setNavigationModeFile_loadFailed_witness :
    setNavigationModeFile initialState [] ⟨"file", "missing.scxml"⟩ none =
        ⟨initialState, [], NavCondition.loadFailed⟩ ∧
      setNavigationModeFile initialState [] ⟨"coin", "scxml/navigation/examiner.scxml"⟩
          (some ⟨4, false, false, false, none, none, []⟩) =
        ⟨initialState, [], NavCondition.loadFailed⟩ :=
  ⟨setNavigationModeFile_loadFailed initialState [] ⟨"file", "missing.scxml"⟩ none
      (Or.inr rfl) (Or.inl rfl),
   setNavigationModeFile_loadFailed initialState [] ⟨"coin", "scxml/navigation/examiner.scxml"⟩
      (some ⟨4, false, false, false, none, none, []⟩)
      (Or.inl rfl) (Or.inr ⟨_, rfl, rfl⟩)⟩

/-- Claim C10: an empty locator while no navigation state machine is
loaded is a complete no-op — in particular the stored
`navigationModeFile` is not set to the empty url, because that
assignment only happens in the branch that destroys an existing state
machine. -/
theorem setNavigationModeFile_empty_noop (s : WidgetState) (cm : CursorMap)
    (url : QUrl) (lo : Option ScXMLStateMachine)
    (hempty : url.isEmpty = true) (hnone : s.currentStateMachine = none) :
    setNavigationModeFile s cm url lo = ⟨s, cm, NavCondition.ok⟩ := by
  have hs : url.scheme = "" := by
    have := hempty
    unfold QUrl.isEmpty at this
    exact eq_of_beq (Bool.and_eq_true_iff.mp this).1
  unfold setNavigationModeFile
  simp [hs, hempty, hnone]

/-- Witness for the C10 theorem: the empty url at the post-construction
state (which has no state machine loaded). -/
theorem setNavigationModeFile_empty_noop_witness :
    setNavigationModeFile initialState [] ⟨"", ""⟩ none =
      ⟨initialState, [], NavCondition.ok⟩ :=
  setNavigationModeFile_empty_noop initialState [] ⟨"", ""⟩ none (by decide) rfl

/-- Claim C4: installing a node whose subgraph contains no camera
synthesizes a fresh perspective camera as the second child of the
internal root (right after the headlight), installs it as both managers'
active camera, and invokes the view-all operation once after
installation (each active attached state machine receives exactly one
ViewAll event); installing a node whose subgraph contains a camera makes
the first camera found by the depth-first search the active camera of
both managers by identity (the same node id, not a copy), and no view
reset occurs (state-machine traces unchanged). -/
theorem setSceneGraph_camera_policy (s : WidgetState) (n : SoNode)
    (rm : SoRenderManager) (em : SoEventManager)
    (hrm : s.sorendermanager = some rm) (hem : s.soeventmanager = some em)
    (hnew : some n ≠ s.scene) :
    (searchForCamera n = none →
      (setSceneGraph s (some n)).sorendermanager =
          some { rm with camera := some (s.nextId + 1),
                         scene := some (SoNode.group s.nextId
                           [SoNode.light s.headlightId, SoNode.camera (s.nextId + 1), n]) } ∧
        (setSceneGraph s (some n)).soeventmanager =
          some { em with camera := some (s.nextId + 1),
                         scene := some (SoNode.group s.nextId
                           [SoNode.light s.headlightId, SoNode.camera (s.nextId + 1), n]),
                         stateMachines := em.stateMachines.map fun sm =>
                           if sm.active then
                             { sm with
                               processedEvents := sm.processedEvents ++ [viewAllEventName] }
                           else sm }) ∧
      (∀ cid, searchForCamera n = some cid →
        (setSceneGraph s (some n)).sorendermanager =
            some { rm with camera := some cid,
                           scene := some (SoNode.group s.nextId
                             [SoNode.light s.headlightId, n]) } ∧
          (setSceneGraph s (some n)).soeventmanager =
            some { em with camera := some cid,
                           scene := some (SoNode.group s.nextId
                             [SoNode.light s.headlightId, n]) }) := by
  constructor
  · intro hc
    unfold setSceneGraph
    rw [if_neg hnew]
    cases hs : s.scene <;> simp [hs, hc, viewAll, hrm, hem]
  · intro cid hc
    unfold setSceneGraph
    rw [if_neg hnew]
    cases hs : s.scene <;> simp [hs, hc, hrm, hem]

/-- Witness for the C4 theorem: a camera-free leaf node (fresh camera id
2 becomes the active camera) and a camera node (its own id 5 becomes the
active camera), both installed at the post-construction state. -/
theorem setSceneGraph_camera_policy_witness :
    (setSceneGraph initialState (some (SoNode.other 5))).sorendermanager =
        some { initialRenderManager with
                 camera := some 2,
                 scene := some (SoNode.group 1
                   [SoNode.light 0, SoNode.camera 2, SoNode.other 5]) } ∧
      (setSceneGraph initialState (some (SoNode.camera 5))).sorendermanager =
        some { initialRenderManager with
                 camera := some 5,
                 scene := some (SoNode.group 1 [SoNode.light 0, SoNode.camera 5]) } :=
  ⟨((setSceneGraph_camera_policy initialState (SoNode.other 5) initialRenderManager
        initialEventManager rfl rfl (by decide)).1 rfl).1,
   ((setSceneGraph_camera_policy initialState (SoNode.camera 5) initialRenderManager
        initialEventManager rfl rfl (by decide)).2 5 rfl).1⟩

/-- Claim C8: a successful load of the distinguished default navigation
descriptor populates the (initially empty) process-wide cursor table
with bindings for exactly the eight documented state names; a successful
load of any other descriptor installs no cursor bindings. -/
theorem default_navigation_cursor_table :
    (∀ (s : WidgetState) (sm : ScXMLStateMachine), sm.isSoScXML = true →
        (setNavigationModeFile s [] DEFAULT_NAVIGATIONFILE (some sm)).cursorMap.map Prod.fst =
          ["interact", "idle", "rotate", "pan", "zoom", "dolly", "seek", "spin"]) ∧
      (∀ (s : WidgetState) (cm : CursorMap) (url : QUrl) (sm : ScXMLStateMachine),
        sm.isSoScXML = true → url ≠ DEFAULT_NAVIGATIONFILE →
        (url.scheme = "coin" ∨ url.scheme = "file") →
        (setNavigationModeFile s cm url (some sm)).cursorMap = cm) := by
  constructor
  · intro s sm hsm
    unfold setNavigationModeFile navigationLoad
    cases hc : s.currentStateMachine <;>
      simp [hsm, hc, setStateCursor, DEFAULT_NAVIGATIONFILE]
  · intro s cm url sm hsm hne hscheme
    have hvne : ¬(DEFAULT_NAVIGATIONFILE = url) := fun h => hne h.symm
    unfold setNavigationModeFile navigationLoad
    rcases hscheme with h | h <;> cases hc : s.currentStateMachine <;>
      simp [h, hsm, hc, hvne]

/-- Witness for the C8 theorem: a compatible machine loaded from the
default descriptor fills the empty table with the eight names; the same
machine loaded from another `file` descriptor leaves a one-entry table
untouched. -/
theorem default_navigation_cursor_table_witness :
    (setNavigationModeFile initialState [] DEFAULT_NAVIGATIONFILE
          (some ⟨7, true, false, false, none, none, []⟩)).cursorMap.map Prod.fst =
        ["interact", "idle", "rotate", "pan", "zoom", "dolly", "seek", "spin"] ∧
      (setNavigationModeFile initialState [("interact", QCursor.arrowCursor)]
          ⟨"file", "other.scxml"⟩ (some ⟨7, true, false, false, none, none, []⟩)).cursorMap =
        [("interact", QCursor.arrowCursor)] :=
  ⟨default_navigation_cursor_table.1 initialState ⟨7, true, false, false, none, none, []⟩ rfl,
   default_navigation_cursor_table.2 initialState [("interact", QCursor.arrowCursor)]
      ⟨"file", "other.scxml"⟩ ⟨7, true, false, false, none, none, []⟩ rfl (by decide)
      (Or.inr rfl)⟩

end Quarter
